import Mathlib

/-!
Verification of the VCI `Quote` adapter (`src/vnstock/explorer/vci/quote.py`).

The embedding follows the source line by line:
* dates and datetimes are modelled as days-since-1970-01-01 plus
  seconds-within-day (1970-01-01 was a Thursday);
* the two accepted input formats ("YYYY-MM-DD HH:MM:SS" and "YYYY-MM-DD")
  are modelled by the inductive `DateInput`, which records which format the
  caller used — the only thing the code's strptime cascade distinguishes;
* `pd.bdate_range(start, end)` is modelled by `bdateCount`: business days
  (Mon–Fri) at the start's time-of-day, from the start date up to the end
  timestamp, inclusive;
* the HTTP transport (`send_request`) is an oracle parameter mapping the
  assembled payload to the decoded response list;
* collaborators that live outside the provided source file
  (`normalize_interval`, `_INTERVAL_MAP`, `_INDEX_MAPPING`,
  `_PRICE_DEPTH_MAP`, `trading_hours`) are modelled from the spec where the
  spec pins them down, and otherwise kept as explicit parameters.
-/

namespace VCI

/-- Errors raised by the Quote methods (each constructor corresponds to one
`raise` site, or to a Python-level error the code can hit). -/
inductive Err where
  /-- the descriptive interval error of `_input_validation` (its message lists
  the valid choices 1m, 5m, 15m, 30m, 1H, 1D, 1W, 1M) -/
  | invalidInterval (tf : String)
  /-- date string matching neither accepted format -/
  | invalidDateFormat (s : String)
  /-- start time after end time -/
  | invalidRange
  /-- index-family symbol missing from the index mapping; carries the symbol
  and the enumerated valid aliases of the error message -/
  | unknownIndex (symbol : String) (validAliases : List String)
  /-- symbol is None at an intraday/price-depth call -/
  | missingSymbol
  /-- market-hours gate: not trading and status "preparing" -/
  | marketUnavailable
  /-- empty/falsy transport response to a history request -/
  | noData
  /-- Python NameError: line 178 evaluates `pd.DataFrame(dt)` but the name
  `dt` is bound nowhere in the module -/
  | nameErrorDt
  /-- Python KeyError from a dict/column lookup -/
  | keyError (k : String)
  deriving DecidableEq, Repr

/-- A point in time: days since 1970-01-01 and seconds within the day.
Models Python `datetime` as far as the code observes it. -/
structure DT where
  days : Int
  secs : Nat
  deriving DecidableEq, Repr

/-- Python datetime comparison `a < b` (lexicographic on date then time). -/
def DT.before (a b : DT) : Bool :=
  decide (a.days < b.days) || (decide (a.days = b.days) && decide (a.secs < b.secs))

/-- A user-supplied date string, as far as the strptime cascade of
`history` distinguishes: either the "YYYY-MM-DD HH:MM:SS" format or the
"YYYY-MM-DD" format. -/
inductive DateInput where
  | dateOnly (d : Int)
  | dateTime (d : Int) (s : Nat)
  deriving DecidableEq, Repr

/-- Parsing of the `start` argument (quote.py lines 101–109): both formats
accepted, no adjustment; a date-only string parses to midnight. -/
def parseStart : DateInput → DT
  | .dateOnly d => { days := d, secs := 0 }
  | .dateTime d s => { days := d, secs := s }

/-- Parsing of a given `end` argument (quote.py lines 113–121): the
date-time format is used as is; the date-only format gets
`+ pd.Timedelta(days=1)`. -/
def effectiveEnd : DateInput → DT
  | .dateOnly d => { days := d + 1, secs := 0 }
  | .dateTime d s => { days := d, secs := s }

/-- Conversion `int(end_time.timestamp())` to epoch seconds. -/
def toEpoch (t : DT) : Int :=
  t.days * 86400 + t.secs

/-- End-time resolution and range check of quote.py lines 112–128: with an
`end` argument, compare `start_time > end_time` after the date-only
adjustment and raise the range error on violation; without one, use
now + 1 day and skip the comparison. -/
def resolveEnd (startTime : DT) (endArg : Option DateInput) (now : DT) : Except Err DT :=
  match endArg with
  | some e =>
      let endTime := effectiveEnd e
      if DT.before endTime startTime then .error .invalidRange
      else .ok endTime
  | none => .ok { days := now.days + 1, secs := now.secs }

/-- Mon–Fri test for an epoch-day number (day 0, 1970-01-01, was a
Thursday, so (d + 3) mod 7 is 0 on Mondays). -/
def isBusinessDay (d : Int) : Bool :=
  decide ((d + 3) % 7 < 5)

/-- Model of `len(pd.bdate_range(start=start_time, end=end_time))`:
business days at the start's time-of-day, from the start date up to the
end timestamp inclusive. -/
def bdateCount (s e : DT) : Nat :=
  if s.days > e.days then 0
  else
    ((List.range (e.days - s.days + 1).toNat).filter (fun i =>
        let d := s.days + (i : Int)
        isBusinessDay d && (decide (d < e.days) || decide (s.secs ≤ e.secs)))).length

/-- Modelled from the spec: the spec's own business-day calendar — the
number of days between two dates, inclusive, excluding weekends (holiday
awareness out of scope). Used to compare the code's `bdate_range` count
against the spec's words. -/
def specBusinessDays (sd ed : Int) : Nat :=
  ((List.range (ed - sd + 1).toNat).filter (fun i => isBusinessDay (sd + (i : Int)))).length

/-- First component of every pair in an association list (Python
`dict.keys()`). -/
def mapKeys (m : List (String × String)) : List String :=
  m.map Prod.fst

/-- Second component of every pair in an association list (Python
`dict.values()`). -/
def mapValues (m : List (String × String)) : List String :=
  m.map Prod.snd

/-- Python dict lookup `m[k]`, first matching key wins. -/
def mapLookup : List (String × String) → String → Option String
  | [], _ => none
  | (k, v) :: t, s => if k = s then some v else mapLookup t s

/-- External collaborators of `history` that live outside the provided
source file: `normalize_interval` from vnstock.core.utils.interval and the
`_INTERVAL_MAP` constant. -/
structure Collab where
  normalize : String → Except Err String
  intervalMap : List (String × String)

/-- Embedding of `Quote._input_validation` (quote.py lines 63–80): normalize
the interval, then raise the descriptive error if the timeframe is not
among the interval map's VALUES; the returned ticker carries
`str(timeframe)`, modelled as the timeframe itself. -/
def inputValidation (c : Collab) (interval : String) : Except Err String := do
  let timeframe ← c.normalize interval
  if (mapValues c.intervalMap).contains timeframe then
    pure timeframe
  else
    throw (.invalidInterval timeframe)

/-- Count-back computation of quote.py lines 132–150: with `count_back`
unset and `end` given, derive the count from the business-day count per
mapped interval value, otherwise use the fixed fallback 1000 or the
explicit `count_back` verbatim. The value is a rational because the hourly
and minute branches multiply by the float 6.5. -/
def autoCountBack (intervalValue : String) (countBack : Option Int)
    (endGiven : Bool) (bd : Nat) : ℚ :=
  if countBack = none ∧ endGiven = true then
    if intervalValue = "ONE_DAY" then (bd : ℚ) + 1
    else if intervalValue = "ONE_HOUR" then (bd : ℚ) * (13/2) + 1
    else if intervalValue = "ONE_MINUTE" then (bd : ℚ) * (13/2) * 60 + 1
    else 1000
  else
    match countBack with
    | some c => (c : ℚ)
    | none => 1000

/-- The POST body assembled at quote.py lines 154–159. -/
structure Payload where
  timeFrame : String
  symbols : List String
  toStamp : Int
  countBack : ℚ
  deriving DecidableEq, Repr

/-- The OHLC table `history` is documented to return (never actually
constructed — see `historyFinalize`). -/
structure OHLCFrame (α : Type) where
  rows : List α
  deriving DecidableEq, Repr

/-- Post-transport step of `history` (quote.py lines 174–181): an
empty/falsy response raises the no-data error; otherwise the code executes
`pd.DataFrame(dt)` where the name `dt` is unbound, a Python NameError, so
no table is ever built. -/
def historyFinalize {α : Type} (jsonData : List α) : Except Err (OHLCFrame α) :=
  if jsonData.isEmpty then .error .noData
  else .error .nameErrorDt

/-- Embedding of `Quote.history` (quote.py lines 83–181), with the
transport collaborator as an oracle from the assembled payload to the
decoded response list. -/
def history {α : Type} (c : Collab) (symbol : String) (start : DateInput)
    (endArg : Option DateInput) (interval : String) (countBack : Option Int)
    (now : DT) (transport : Payload → List α) : Except Err (OHLCFrame α) := do
  let timeframe ← inputValidation c interval
  let startTime := parseStart start
  let endTime ← resolveEnd startTime endArg now
  let endStamp := toEpoch endTime
  let intervalValue ← match mapLookup c.intervalMap timeframe with
    | some v => pure v
    | none => throw (.keyError timeframe)
  let bd := bdateCount startTime endTime
  let cb := autoCountBack intervalValue countBack endArg.isSome bd
  let payload : Payload :=
    { timeFrame := intervalValue, symbols := [symbol], toStamp := endStamp, countBack := cb }
  historyFinalize (transport payload)

/-- Modelled from the spec: the recognized interval tokens of §4.1 — the
key domain of the interval map. -/
def recognizedIntervals : List String :=
  ["1m", "5m", "15m", "30m", "1H", "1D", "1W", "1M"]

/-- Modelled from the spec: `normalize_interval` from
vnstock.core.utils.interval is not in src. Per §4.1 it maps each recognized
interval string to a canonical timeframe that is a member of the interval
map's key domain, and fails with the invalid-interval error otherwise. -/
def specNormalize (interval : String) : Except Err String :=
  if recognizedIntervals.contains interval then .ok interval
  else .error (.invalidInterval interval)

/-- Modelled from the spec: the `_INTERVAL_MAP` constant is not in src. Per
§3 it is a static mapping from canonical timeframe to provider code string
(e.g. "ONE_DAY"); quote.py lines 140–148 name the provider codes ONE_DAY,
ONE_HOUR and ONE_MINUTE, and §4.3 sends the weekly/monthly timeframes to
the fallback branch. -/
def specIntervalMap : List (String × String) :=
  [("1m", "ONE_MINUTE"), ("5m", "ONE_MINUTE"), ("15m", "ONE_MINUTE"),
   ("30m", "ONE_MINUTE"), ("1H", "ONE_HOUR"), ("1D", "ONE_DAY"),
   ("1W", "ONE_WEEK"), ("1M", "ONE_MONTH")]

/-- The spec-modelled collaborator pair. -/
def specCollab : Collab :=
  { normalize := specNormalize, intervalMap := specIntervalMap }

/-- A collaborator stub under which the membership test of
`_input_validation` passes and the key lookup of line 130 succeeds, used to
exercise the stages of `history` after interval validation (under the
spec-modelled collaborators the values-based membership test rejects every
interval, see the C4 theorem). -/
def passthroughCollab : Collab :=
  { normalize := fun _ => .ok "ONE_DAY", intervalMap := [("ONE_DAY", "ONE_DAY")] }

/-- Like `passthroughCollab` but producing the hourly provider code. -/
def hourCollab : Collab :=
  { normalize := fun _ => .ok "ONE_HOUR", intervalMap := [("ONE_HOUR", "ONE_HOUR")] }

/-- Occurrence of a pattern as a contiguous subsequence: true when the
pattern is a prefix of some suffix. -/
def subOccurs (pat : List Char) : List Char → Bool
  | [] => pat.isPrefixOf []
  | c :: rest => pat.isPrefixOf (c :: rest) || subOccurs pat rest

/-- Python substring test `'INDEX' in symbol`. -/
def containsINDEX (symbol : String) : Bool :=
  subOccurs "INDEX".toList symbol.toList

/-- Embedding of `Quote._index_validation` (quote.py lines 55–61): raise the
unknown-index error — whose message enumerates the mapping's keys — when the
symbol is not a key of the index mapping, otherwise return the mapped
internal code. The `_INDEX_MAPPING` table itself is not in src, so it stays
a parameter; the spec (§4.2) fixes only that it is a static
index-name-to-internal-code table. -/
def indexValidation (mapping : List (String × String)) (symbol : String) : Except Err String :=
  if (mapKeys mapping).contains symbol then
    match mapLookup mapping symbol with
    | some v => .ok v
    | none => .error (.keyError symbol)
  else
    .error (.unknownIndex symbol (mapKeys mapping))

/-- The symbol-resolution step of `Quote.__init__` (quote.py lines 52–53),
after the external `validate_symbol` collaborator has normalized the raw
symbol: symbols containing the INDEX marker go through
`_index_validation`. -/
def initSymbol (mapping : List (String × String)) (symbol : String) : Except Err String :=
  if containsINDEX symbol then indexValidation mapping symbol else .ok symbol

/-- Result of the external market-hours oracle
`trading_hours(None)` (spec §6). -/
structure MarketStatus where
  isTradingHour : Bool
  dataStatus : String
  time : String
  deriving DecidableEq, Repr

/-- The market-hours precondition shared by `intraday` and `price_depth`
(quote.py lines 194–196 and 244–246): raise exactly when the oracle reports
`is_trading_hour is False` and `data_status == 'preparing'`. -/
def marketGate (m : MarketStatus) : Except Err Unit :=
  if m.isTradingHour = false ∧ m.dataStatus = "preparing" then .error .marketUnavailable
  else .ok ()

/-- The POST body of `Quote.intraday` (quote.py lines 205–209). -/
structure IntradayRequest where
  symbol : String
  limit : Int
  truncTime : Option String
  deriving DecidableEq, Repr

/-- Embedding of `Quote.intraday` up to the network call (quote.py lines
184–222): market-hours gate, then the missing-symbol check, then the
request payload. The oversized-page warning at line 202 is a log message
with no effect on the result. -/
def intraday (m : MarketStatus) (symbol : Option String) (pageSize : Int)
    (lastTime : Option String) : Except Err IntradayRequest := do
  let _ ← marketGate m
  match symbol with
  | none => throw .missingSymbol
  | some s => pure { symbol := s, limit := pageSize, truncTime := lastTime }

/-- The table `price_depth` returns, as far as the code shapes it: its
column names after selection and renaming, and the `df.source` value —
which Python attribute assignment attaches to the DataFrame object itself,
not as a per-row column. -/
structure DepthFrame where
  cols : List String
  attrSource : Option String
  deriving DecidableEq, Repr

/-- The response-shaping step of `Quote.price_depth` (quote.py lines
270–277): keep exactly the columns that are keys of the depth-column map
(`df[_PRICE_DEPTH_MAP.keys()]` raises a KeyError when one is missing),
rename each per the map, and set the source label as a table-level
attribute. -/
def priceDepthTransform (depthMap : List (String × String)) (rawCols : List String)
    (dataSource : String) : Except Err DepthFrame :=
  if (mapKeys depthMap).all (fun k => rawCols.contains k) then
    .ok { cols := (mapKeys depthMap).map (fun k => (mapLookup depthMap k).getD k),
          attrSource := some dataSource }
  else
    .error (.keyError "columns")

/-- Embedding of `Quote.price_depth` (quote.py lines 237–278): market-hours
gate, missing-symbol check, network call (the transport oracle maps the
symbol of the payload to the raw response's column set), then the shaping
step. The `_PRICE_DEPTH_MAP` constant is not in src and stays a parameter;
the spec (§4.5) fixes only that it is a fixed column-rename table. -/
def price_depth (m : MarketStatus) (symbol : Option String)
    (depthMap : List (String × String)) (transport : String → List String) :
    Except Err DepthFrame := do
  let _ ← marketGate m
  match symbol with
  | none => throw .missingSymbol
  | some s => priceDepthTransform depthMap (transport s) "VCI"

/-! Helper lemmas shared between the claim theorems. -/

/-- Key membership in an association list agrees with lookup success —
the Python equivalence between `k in d.keys()` and `d[k]` succeeding. -/
theorem contains_eq_lookup_isSome (m : List (String × String)) (s : String) :
    (mapKeys m).contains s = (mapLookup m s).isSome := by
  induction m with
  | nil => rfl
  | cons p t ih =>
    obtain ⟨k, v⟩ := p
    show (k :: mapKeys t).contains s = (if k = s then some v else mapLookup t s).isSome
    by_cases h : k = s
    · subst h; simp
    · rw [if_neg h, List.contains_cons]
      have hbe : (s == k) = false := beq_eq_false_iff_ne.mpr (Ne.symm h)
      rw [hbe, Bool.false_or, ih]

/-- Renaming the selected key columns of an association list with
duplicate-free keys yields exactly the list of values, in order. -/
theorem renamed_cols_eq_values (m : List (String × String)) (hnd : (mapKeys m).Nodup) :
    (mapKeys m).map (fun k => (mapLookup m k).getD k) = mapValues m := by
  induction m with
  | nil => rfl
  | cons p t ih =>
    obtain ⟨k, v⟩ := p
    have hcons : mapKeys ((k, v) :: t) = k :: mapKeys t := rfl
    rw [hcons] at hnd
    have hk : k ∉ mapKeys t := (List.nodup_cons.mp hnd).1
    have hnd' : (mapKeys t).Nodup := (List.nodup_cons.mp hnd).2
    have hhead : (mapLookup ((k, v) :: t) k).getD k = v := by simp [mapLookup]
    have htl : (mapKeys t).map (fun s => (mapLookup ((k, v) :: t) s).getD s)
        = (mapKeys t).map (fun s => (mapLookup t s).getD s) := by
      apply List.map_congr_left
      intro s hs
      have hne : ¬ k = s := fun h => hk (h ▸ hs)
      simp [mapLookup, hne]
    calc (mapKeys ((k, v) :: t)).map (fun s => (mapLookup ((k, v) :: t) s).getD s)
        = (mapLookup ((k, v) :: t) k).getD k ::
            (mapKeys t).map (fun s => (mapLookup ((k, v) :: t) s).getD s) := rfl
      _ = v :: (mapKeys t).map (fun s => (mapLookup t s).getD s) := by rw [hhead, htl]
      _ = v :: mapValues t := by rw [ih hnd']
      _ = mapValues ((k, v) :: t) := rfl

/-- For midnight-aligned endpoints — which is what date-only inputs parse
to — the code's `bdate_range` count agrees with the spec's business-day
calendar. -/
theorem bdateCount_midnight (sd ed : Int) :
    bdateCount ⟨sd, 0⟩ ⟨ed, 0⟩ = specBusinessDays sd ed := by
  unfold bdateCount specBusinessDays
  by_cases h : sd > ed
  · rw [if_pos h]
    have h1 : (ed - sd + 1).toNat = 0 := by omega
    rw [h1]
    rfl
  · rw [if_neg h]
    congr 1
    apply List.filter_congr
    intro i _
    simp

/-- Characterization of the range check: with an `end` argument, `history`
raises the range error exactly when the effective end precedes the parsed
start. -/
theorem resolveEnd_error_iff (st : DT) (e : DateInput) (now : DT) :
    (resolveEnd st (some e) now = .error .invalidRange)
      ↔ DT.before (effectiveEnd e) st = true := by
  unfold resolveEnd
  by_cases hb : DT.before (effectiveEnd e) st = true
  · simp [hb]
  · simp [hb]

/-- The response-shaping step of `price_depth` never raises the
market-availability error (only the gate before it does). -/
theorem priceDepthTransform_ne_market (dm : List (String × String)) (rc : List String)
    (ds : String) : priceDepthTransform dm rc ds ≠ .error .marketUnavailable := by
  unfold priceDepthTransform
  split
  · intro h; simp at h
  · intro h; simp at h

/-- Payload characterization for the pass-through collaborator pair with
the claims' concrete daily query (start 2024-01-01, end 2024-01-05,
effective end 2024-01-06 after the date-only adjustment). -/
theorem history_passthrough_payload (tr : Payload → List Nat) :
    history passthroughCollab "ACB" (.dateOnly 19723) (some (.dateOnly 19727)) "1D" none
        ⟨19800, 0⟩ tr
      = historyFinalize (tr ⟨"ONE_DAY", ["ACB"], toEpoch ⟨19728, 0⟩,
          autoCountBack "ONE_DAY" none true (bdateCount ⟨19723, 0⟩ ⟨19728, 0⟩)⟩) := rfl

/-- Payload characterization as above, for the hourly collaborator stub. -/
theorem history_hour_payload (tr : Payload → List Nat) :
    history hourCollab "ACB" (.dateOnly 19723) (some (.dateOnly 19727)) "1H" none
        ⟨19800, 0⟩ tr
      = historyFinalize (tr ⟨"ONE_HOUR", ["ACB"], toEpoch ⟨19728, 0⟩,
          autoCountBack "ONE_HOUR" none true (bdateCount ⟨19723, 0⟩ ⟨19728, 0⟩)⟩) := rfl

/-- Five business days (2024-01-01 through 2024-01-05) lie in the range
from 2024-01-01 to the effective end 2024-01-06. -/
theorem bdate_jan_week : bdateCount ⟨19723, 0⟩ ⟨19728, 0⟩ = 5 := rfl

/-- The automatic daily count at five business days is six. -/
theorem acb_day_five : autoCountBack "ONE_DAY" none true 5 = 6 := by
  have h0 : autoCountBack "ONE_DAY" none true 5 = ((5 : ℕ) : ℚ) + 1 := rfl
  rw [h0]; norm_num

/-- The automatic hourly count at five business days is 5 × 6.5 + 1 =
33.5 = 67/2. -/
theorem acb_hour_five : autoCountBack "ONE_HOUR" none true 5 = ((67 : ℤ) : ℚ) / ((2 : ℤ) : ℚ) := by
  have h0 : autoCountBack "ONE_HOUR" none true 5 = ((5 : ℕ) : ℚ) * (13/2) + 1 := rfl
  rw [h0]; norm_num

/-- The rational 67/2 has denominator 2. -/
theorem q67_den : (((67 : ℤ) : ℚ) / ((2 : ℤ) : ℚ)).den = 2 := by
  have h2 : ((((67 : ℤ) : ℚ) / ((2 : ℤ) : ℚ)).den : ℤ) = (2 : ℤ) :=
    Rat.den_div_eq_of_coprime (by norm_num) (by norm_num)
  omega

/-- The automatic hourly count at five business days is not an integer:
its reduced denominator is 2. -/
theorem acb_hour_five_den : (autoCountBack "ONE_HOUR" none true 5).den = 2 := by
  rw [acb_hour_five, q67_den]

/-! Claim theorems. -/

/-- Claim C1: the claim says that a history call that passes validation and
receives a non-empty raw bar list returns a table built from that array
with the day field coerced to a datetime type. The code cannot: line 178
evaluates `pd.DataFrame(dt)` with the name `dt` unbound, a Python
NameError, so every such call fails after the transport returns — here
shown on a valid daily query whose transport yields a non-empty response,
and on the post-transport step at another non-empty response. -/
theorem quote_history_never_builds_table :
    (history (α := Nat) passthroughCollab "ACB" (.dateOnly 19723) (some (.dateOnly 19727))
        "1D" none ⟨19800, 0⟩ (fun _ => [7]) = .error .nameErrorDt) ∧
    (historyFinalize [(1 : Nat), 2, 3] = .error .nameErrorDt) :=
  ⟨rfl, rfl⟩

/-- Claim C2: with `count_back` unset and `end` given, the count sent
upstream is business-days + 1 for the daily provider code, business-days ×
6.5 + 1 for hourly, business-days × 6.5 × 60 + 1 for minute, and the fixed
fallback 1000 otherwise (weekly/monthly); the business-day count agrees
with the spec's weekend-excluding calendar on date-only inputs; and the
concrete instance start=2024-01-01 (Mon), end=2024-01-05 (Fri), daily
timeframe hands the transport a count-back of 6. -/
theorem quote_history_count_back_auto :
    (∀ bd : Nat, autoCountBack "ONE_DAY" none true bd = (bd : ℚ) + 1) ∧
    (∀ bd : Nat, autoCountBack "ONE_HOUR" none true bd = (bd : ℚ) * (13/2) + 1) ∧
    (∀ bd : Nat, autoCountBack "ONE_MINUTE" none true bd = (bd : ℚ) * (13/2) * 60 + 1) ∧
    (∀ bd : Nat, autoCountBack "ONE_WEEK" none true bd = 1000) ∧
    (∀ bd : Nat, autoCountBack "ONE_MONTH" none true bd = 1000) ∧
    (∀ sd ed : Int, bdateCount ⟨sd, 0⟩ ⟨ed, 0⟩ = specBusinessDays sd ed) ∧
    (specBusinessDays 19723 19728 = 5) ∧
    (history (α := Nat) passthroughCollab "ACB" (.dateOnly 19723) (some (.dateOnly 19727))
        "1D" none ⟨19800, 0⟩ (fun p => if p.countBack = 6 then [0] else [])
      = .error .nameErrorDt) := by
  refine ⟨fun bd => rfl, fun bd => rfl, fun bd => rfl, fun bd => rfl, fun bd => rfl,
    bdateCount_midnight, rfl, ?_⟩
  rw [history_passthrough_payload, bdate_jan_week, acb_day_five]
  simp
  rfl

/-- Claim C3, counterexample: the claim says the count-back sent upstream
is always an integer, but on the hourly timeframe over five business days
the automatic count is 5 × 6.5 + 1 = 33.5 — the transport observes a value
whose reduced denominator is not 1. -/
theorem quote_history_count_back_not_integer :
    (history (α := Nat) hourCollab "ACB" (.dateOnly 19723) (some (.dateOnly 19727))
        "1H" none ⟨19800, 0⟩ (fun p => if p.countBack.den = 1 then [] else [0])
      = .error .nameErrorDt) ∧
    ((autoCountBack "ONE_HOUR" none true 5).den = 2) := by
  refine ⟨?_, acb_hour_five_den⟩
  rw [history_hour_payload, bdate_jan_week, acb_hour_five]
  show historyFinalize
      (if (((67 : ℤ) : ℚ) / ((2 : ℤ) : ℚ)).den = 1 then ([] : List Nat) else [0])
    = Except.error Err.nameErrorDt
  rw [q67_den, if_neg (by decide)]
  rfl

/-- Claim C3, amended: an explicit `count_back` is used verbatim; the
automatic count is an integer for the daily and minute timeframes and for
the 1000 fallback, but the hourly automatic count is business-days × 6.5 +
1, which has denominator 2 (is not an integer) when the business-day count
is odd, e.g. 33.5 at five business days. -/
theorem quote_history_count_back_amended :
    (∀ (iv : String) (eg : Bool) (bd : Nat) (c : Int),
        autoCountBack iv (some c) eg bd = (c : ℚ)) ∧
    (∀ bd : Nat, (autoCountBack "ONE_DAY" none true bd).den = 1) ∧
    (∀ bd : Nat, (autoCountBack "ONE_MINUTE" none true bd).den = 1) ∧
    (∀ bd : Nat, (autoCountBack "ONE_WEEK" none true bd).den = 1) ∧
    (∀ bd : Nat, autoCountBack "ONE_HOUR" none true bd = (bd : ℚ) * (13/2) + 1) ∧
    ((autoCountBack "ONE_HOUR" none true 5).den = 2) := by
  refine ⟨fun iv eg bd c => rfl, ?_, ?_, fun bd => rfl, fun bd => rfl, acb_hour_five_den⟩
  · intro bd
    have h0 : autoCountBack "ONE_DAY" none true bd = (bd : ℚ) + 1 := rfl
    have h1 : ((bd : ℚ) + 1) = ((bd + 1 : ℕ) : ℚ) := by push_cast; ring
    rw [h0, h1, Rat.den_natCast]
  · intro bd
    have h0 : autoCountBack "ONE_MINUTE" none true bd = (bd : ℚ) * (13/2) * 60 + 1 := rfl
    have h1 : ((bd : ℚ) * (13/2) * 60 + 1) = ((390 * bd + 1 : ℕ) : ℚ) := by push_cast; ring
    rw [h0, h1, Rat.den_natCast]

/-- Claim C4: the claim says every recognized interval's normalized
timeframe lies in the interval map's key domain so the provider-code
lookup succeeds. The key is indeed in the key domain, but
`_input_validation` tests membership in the map's VALUES (the provider
codes), which share no element with the keys, so even the valid interval
"1D" is rejected with the descriptive invalid-interval error before any
network call. -/
theorem quote_interval_check_rejects_valid_interval :
    (history (α := Nat) specCollab "ACB" (.dateOnly 19723) (some (.dateOnly 19727))
        "1D" none ⟨19800, 0⟩ (fun _ => [0]) = .error (.invalidInterval "1D")) ∧
    ((mapKeys specIntervalMap).contains "1D" = true) ∧
    ((specIntervalMap.map Prod.fst).all
        (fun k => !((specIntervalMap.map Prod.snd).contains k)) = true) :=
  ⟨rfl, rfl, rfl⟩

/-- Claim C5, counterexample: with date-only arguments start=2024-01-05
and end=2024-01-04 — start strictly after end — the range check passes
(the date-only end is advanced one day before the comparison), so no
range error is raised and the call proceeds past validation to the
post-transport stage. -/
theorem quote_range_check_start_after_end_accepted :
    (resolveEnd (parseStart (.dateOnly 19727)) (some (.dateOnly 19726)) ⟨19800, 0⟩
      = .ok ⟨19727, 0⟩) ∧
    (history (α := Nat) passthroughCollab "ACB" (.dateOnly 19727) (some (.dateOnly 19726))
        "1D" none ⟨19800, 0⟩ (fun _ => [0]) = .error .nameErrorDt) :=
  ⟨rfl, rfl⟩

/-- Claim C5, amended: the range error is raised exactly when the parsed
start exceeds the effective end — for date-only pairs that means start >
end + 1 day (so start = end + 1 day also passes), for date-time pairs it
is the plain lexicographic comparison — and start == end always passes
validation. -/
theorem quote_range_check_amended (sd ed : Int) (ss es : Nat) (now : DT) :
    (resolveEnd (parseStart (.dateOnly sd)) (some (.dateOnly ed)) now
        = .error .invalidRange ↔ sd > ed + 1) ∧
    (resolveEnd (parseStart (.dateTime sd ss)) (some (.dateTime ed es)) now
        = .error .invalidRange ↔ (ed < sd ∨ (ed = sd ∧ es < ss))) ∧
    (∀ e : DateInput, ∃ d, resolveEnd (parseStart e) (some e) now = .ok d) := by
  refine ⟨?_, ?_, ?_⟩
  · rw [resolveEnd_error_iff]
    simp only [parseStart, effectiveEnd, DT.before, Bool.or_eq_true,
      Bool.and_eq_true, decide_eq_true_eq]
    omega
  · rw [resolveEnd_error_iff]
    simp only [parseStart, effectiveEnd, DT.before, Bool.or_eq_true,
      Bool.and_eq_true, decide_eq_true_eq]
  · intro e
    cases e with
    | dateOnly d =>
        have hb : DT.before ⟨d + 1, 0⟩ ⟨d, 0⟩ = false := by
          simp [DT.before]
        exact ⟨⟨d + 1, 0⟩, by simp [resolveEnd, parseStart, effectiveEnd, hb]⟩
    | dateTime d s =>
        have hb : DT.before ⟨d, s⟩ ⟨d, s⟩ = false := by
          simp [DT.before]
        exact ⟨⟨d, s⟩, by simp [resolveEnd, parseStart, effectiveEnd, hb]⟩

/-- Witness for the amended C5 theorem: start=2024-01-07 is more than one
day after end=2024-01-05, so the range error is raised there. -/
theorem quote_range_check_amended_witness :
    resolveEnd (parseStart (.dateOnly 19729)) (some (.dateOnly 19727)) ⟨19800, 0⟩
      = .error .invalidRange :=
  (quote_range_check_amended 19729 19727 0 0 ⟨19800, 0⟩).1.mpr (by omega)

/-- Claim C6: a date-only `end` is advanced by exactly one day before
conversion to epoch seconds, a date-time `end` is used unchanged — shown
on the parse stage, on the epoch conversion, and at the transport
boundary, where the concrete query with end=2024-01-05 carries the epoch
stamp of 2024-01-06 00:00:00. -/
theorem quote_date_only_end_advanced_one_day :
    (∀ d : Int, effectiveEnd (.dateOnly d) = ⟨d + 1, 0⟩) ∧
    (∀ (d : Int) (s : Nat), effectiveEnd (.dateTime d s) = ⟨d, s⟩) ∧
    (∀ d : Int, toEpoch (effectiveEnd (.dateOnly d)) = (d + 1) * 86400) ∧
    (∀ (d : Int) (s : Nat), toEpoch (effectiveEnd (.dateTime d s)) = d * 86400 + (s : Int)) ∧
    (history (α := Nat) passthroughCollab "ACB" (.dateOnly 19723) (some (.dateOnly 19727))
        "1D" none ⟨19800, 0⟩ (fun p => if p.toStamp = 19728 * 86400 then [0] else [])
      = .error .nameErrorDt) := by
  refine ⟨fun d => rfl, fun d s => rfl, ?_, fun d s => rfl, rfl⟩
  intro d
  simp [toEpoch, effectiveEnd]

/-- Claim C7: a symbol containing the INDEX marker is resolved through the
index mapping at construction — when the symbol is a key, the mapped
internal code is returned, and when it is not, construction fails with the
unknown-index error enumerating all valid aliases (the mapping's keys). -/
theorem quote_index_symbol_resolution (mapping : List (String × String)) (symbol : String)
    (hix : containsINDEX symbol = true) :
    (∀ v, mapLookup mapping symbol = some v → initSymbol mapping symbol = .ok v) ∧
    (mapLookup mapping symbol = none →
        initSymbol mapping symbol = .error (.unknownIndex symbol (mapKeys mapping))) := by
  constructor
  · intro v hv
    unfold initSymbol
    rw [if_pos hix]
    unfold indexValidation
    have hc : (mapKeys mapping).contains symbol = true := by
      rw [contains_eq_lookup_isSome, hv]
      rfl
    rw [if_pos hc, hv]
  · intro hv
    unfold initSymbol
    rw [if_pos hix]
    unfold indexValidation
    have hc : (mapKeys mapping).contains symbol = false := by
      rw [contains_eq_lookup_isSome, hv]
      rfl
    rw [if_neg (by rw [hc]; simp)]

/-- Witness for C7 at a concrete mapping and symbol. -/
theorem quote_index_symbol_resolution_witness :
    initSymbol [("VNINDEX", "VNINDEX")] "VNINDEX" = .ok "VNINDEX" :=
  (quote_index_symbol_resolution [("VNINDEX", "VNINDEX")] "VNINDEX" (by rfl)).1
    "VNINDEX" (by rfl)

/-- Claim C8: for every market-hours oracle result, `intraday` and
`price_depth` fail with the market-availability error exactly when the
oracle reports not-trading and status "preparing"; in every other case
they proceed to issue the request (shown for intraday by the request
payload it builds). -/
theorem quote_market_gate_exactly_preparing (b : Bool) (st ti sym : String) (ps : Int)
    (lt : Option String) (dm : List (String × String)) (tr : String → List String) :
    (intraday ⟨b, st, ti⟩ (some sym) ps lt = .error .marketUnavailable
        ↔ (b = false ∧ st = "preparing")) ∧
    (price_depth ⟨b, st, ti⟩ (some sym) dm tr = .error .marketUnavailable
        ↔ (b = false ∧ st = "preparing")) ∧
    (¬(b = false ∧ st = "preparing") →
        intraday ⟨b, st, ti⟩ (some sym) ps lt = .ok ⟨sym, ps, lt⟩) := by
  by_cases hg : b = false ∧ st = "preparing"
  · obtain ⟨hb, hs⟩ := hg
    subst hb
    subst hs
    exact ⟨⟨fun _ => ⟨rfl, rfl⟩, fun _ => rfl⟩, ⟨fun _ => ⟨rfl, rfl⟩, fun _ => rfl⟩,
      fun h => absurd ⟨rfl, rfl⟩ h⟩
  · have hgate : marketGate ⟨b, st, ti⟩ = .ok () := by
      unfold marketGate
      rw [if_neg hg]
    have h1 : intraday ⟨b, st, ti⟩ (some sym) ps lt = .ok ⟨sym, ps, lt⟩ := by
      unfold intraday
      rw [hgate]
      rfl
    have h2 : price_depth ⟨b, st, ti⟩ (some sym) dm tr
        = priceDepthTransform dm (tr sym) "VCI" := by
      unfold price_depth
      rw [hgate]
      rfl
    refine ⟨?_, ?_, fun _ => h1⟩
    · rw [h1]
      exact ⟨fun h => by simp at h, fun h => absurd h hg⟩
    · rw [h2]
      exact ⟨fun h => absurd h (priceDepthTransform_ne_market dm (tr sym) "VCI"),
        fun h => absurd h hg⟩

/-- Witness for C8: the not-trading, "preparing" oracle result makes
intraday fail with the market-availability error. -/
theorem quote_market_gate_exactly_preparing_witness :
    intraday ⟨false, "preparing", "t"⟩ (some "ACB") 100 none = .error .marketUnavailable :=
  (quote_market_gate_exactly_preparing false "preparing" "t" "ACB" 100 none []
    (fun _ => [])).1.mpr ⟨rfl, rfl⟩

/-- Claim C9: an empty/falsy transport response makes history fail with
the no-data error and never yields a table — shown on the post-transport
step for every empty response, and through the full pipeline on the
concrete daily query. -/
theorem quote_history_empty_response_no_data :
    (∀ r : List Nat, r.isEmpty = true → historyFinalize r = .error .noData) ∧
    (history (α := Nat) passthroughCollab "ACB" (.dateOnly 19723) (some (.dateOnly 19727))
        "1D" none ⟨19800, 0⟩ (fun _ => []) = .error .noData) := by
  refine ⟨?_, rfl⟩
  intro r hr
  unfold historyFinalize
  rw [if_pos hr]

/-- Witness for C9 at the concrete empty response. -/
theorem quote_history_empty_response_no_data_witness :
    historyFinalize ([] : List Nat) = .error .noData :=
  quote_history_empty_response_no_data.1 [] rfl

/-- Claim C10: under a passing market gate, for every raw response whose
column set covers the depth-column map's keys (the responses price_depth
accepts), the returned table's columns are exactly the map's values —
each key renamed per the map, every other source column dropped — and the
data-source label sits in the table-level attribute slot, not among the
columns. -/
theorem quote_price_depth_columns (m : MarketStatus) (sym : String)
    (dm : List (String × String)) (tr : String → List String)
    (hg : marketGate m = .ok ()) (hnd : (mapKeys dm).Nodup)
    (hall : (mapKeys dm).all (fun k => (tr sym).contains k) = true) :
    price_depth m (some sym) dm tr = .ok ⟨mapValues dm, some "VCI"⟩ := by
  have h2 : price_depth m (some sym) dm tr = priceDepthTransform dm (tr sym) "VCI" := by
    unfold price_depth
    rw [hg]
    rfl
  rw [h2]
  unfold priceDepthTransform
  rw [if_pos hall, renamed_cols_eq_values dm hnd]

/-- Witness for C10 at a concrete map and raw response. -/
theorem quote_price_depth_columns_witness :
    price_depth ⟨true, "live", "t"⟩ (some "ACB") [("a", "x"), ("b", "y")]
        (fun _ => ["a", "b", "c"]) = .ok ⟨["x", "y"], some "VCI"⟩ :=
  quote_price_depth_columns ⟨true, "live", "t"⟩ "ACB" [("a", "x"), ("b", "y")]
    (fun _ => ["a", "b", "c"]) (by rfl) (by decide) (by rfl)

end VCI
